import Mathlib

/-!
Shallow embedding of the biblioteca exercises (src/3a): a SQLite-backed
CRUD layer over `autores`/`libros` (ej3a1, ej3a2) and a MongoDB-backed
document layer (ej3a4).  Database states are modelled as explicit record
states; SQL/driver errors are modelled with `Except`; console printing is
not observable to callers and is dropped (only return values and state
changes are kept).
-/

/-- A row of the `autores` table: `id INTEGER PRIMARY KEY AUTOINCREMENT`,
`nombre TEXT NOT NULL`. -/
structure Autor where
  id : Nat
  nombre : String
deriving DecidableEq, Repr

/-- A row of the `libros` table: `id INTEGER PRIMARY KEY AUTOINCREMENT`,
`titulo TEXT NOT NULL`, `anio INTEGER`, `autor_id INTEGER` (foreign key to
`autores.id`).  The exercise code always binds `anio` and `autor_id`, so they
are modelled as always present. -/
structure Libro where
  id : Nat
  titulo : String
  anio : Int
  autor_id : Nat
deriving DecidableEq, Repr

/-- State of one SQLite database: the two tables plus the AUTOINCREMENT
sequence counters (the next assigned id is `seq + 1`). -/
structure LibState where
  seqAutores : Nat
  seqLibros : Nat
  autores : List Autor
  libros : List Libro
deriving DecidableEq, Repr

/-- The empty database a fresh connection to a missing/`:memory:` target sees. -/
def emptyDb : LibState := ⟨0, 0, [], []⟩

/-- A backend (`sqlite3.Error`) failure. -/
inductive SqlError where
  | backend
deriving DecidableEq, Repr

/-- Fault injection for the transaction demos: which statement inside the
transaction scope raises a backend error. -/
inductive TxFault where
  | noFault
  | atInsertAutor
  | atInsertLibro
deriving DecidableEq, Repr

/-- `ORDER BY titulo` comparison on joined `(titulo, anio, nombre)` rows. -/
def rowLeTitulo (x y : String × Int × String) : Prop := x.1 ≤ y.1

instance : DecidableRel rowLeTitulo := fun x y => inferInstanceAs (Decidable (x.1 ≤ y.1))

instance : IsTotal (String × Int × String) rowLeTitulo := ⟨fun a b => le_total a.1 b.1⟩

instance : IsTrans (String × Int × String) rowLeTitulo := ⟨fun _ _ _ h1 h2 => le_trans h1 h2⟩

namespace Ej3a1

/-- `crear_conexion` (ej3a1): `DB_PATH` is `":memory:"`, so connecting opens a
fresh empty in-memory database and leaves any on-disk file untouched.  First
component: the (unchanged) filesystem; second: the new connection's database. -/
def crear_conexion (fs : Option LibState) : Option LibState × LibState :=
  (fs, emptyDb)

/-- Schema-level state of a database: a table is `none` when it does not exist
and `some rows` when it exists and holds `rows`. -/
structure SchemaState where
  tablaAutores : Option (List Autor)
  tablaLibros : Option (List Libro)
deriving DecidableEq, Repr

/-- `CREATE TABLE IF NOT EXISTS`: an existing table (and its rows) is left
untouched; a missing table is created empty. -/
def createTableIfNotExists {α : Type} (t : Option (List α)) : Option (List α) :=
  match t with
  | some rows => some rows
  | none => some []

/-- `crear_tablas` (ej3a1): runs `CREATE TABLE IF NOT EXISTS` for `autores`
and for `libros`, then commits. -/
def crear_tablas (st : SchemaState) : SchemaState :=
  { tablaAutores := createTableIfNotExists st.tablaAutores
    tablaLibros := createTableIfNotExists st.tablaLibros }

/-- `insertar_autores` (ej3a1): `executemany` of `INSERT INTO autores (nombre)
VALUES (?)`; AUTOINCREMENT assigns consecutive ids, then commit. -/
def insertar_autores (st : LibState) (autores : List String) : LibState :=
  let nuevos := autores.enum.map (fun p => Autor.mk (st.seqAutores + 1 + p.1) p.2)
  { st with seqAutores := st.seqAutores + autores.length
            autores := st.autores ++ nuevos }

/-- `insertar_libros` (ej3a1): `executemany` of
`INSERT INTO libros (titulo, anio, autor_id) VALUES (?, ?, ?)`, then commit. -/
def insertar_libros (st : LibState) (libros : List (String × Int × Nat)) : LibState :=
  let nuevos := libros.enum.map
    (fun p => Libro.mk (st.seqLibros + 1 + p.1) p.2.1 p.2.2.1 p.2.2.2)
  { st with seqLibros := st.seqLibros + libros.length
            libros := st.libros ++ nuevos }

/-- The inner join `FROM libros l JOIN autores a ON l.autor_id = a.id`
projected to `(l.titulo, l.anio, a.nombre)`. -/
def joinLibrosAutores (st : LibState) : List (String × Int × String) :=
  st.libros.flatMap (fun l =>
    (st.autores.filter (fun a => a.id == l.autor_id)).map
      (fun a => (l.titulo, l.anio, a.nombre)))

/-- `consultar_libros` (ej3a1): the join above with `ORDER BY l.titulo`. -/
def consultar_libros (st : LibState) : List (String × Int × String) :=
  List.insertionSort rowLeTitulo (joinLibrosAutores st)

/-- `buscar_libros_por_autor` (ej3a1): join filtered by `WHERE a.nombre = ?`,
projected to `(titulo, anio)`.  No rows match when no author has that name,
and the function returns the plain (possibly empty) result list. -/
def buscar_libros_por_autor (st : LibState) (nombre_autor : String) : List (String × Int) :=
  st.libros.flatMap (fun l =>
    (st.autores.filter (fun a => a.id == l.autor_id && a.nombre == nombre_autor)).map
      (fun _ => (l.titulo, l.anio)))

/-- `actualizar_libro` (ej3a1): dynamically builds
`UPDATE libros SET ... WHERE id = ?` from the fields that are not `None`;
with no fields it only prints and issues no statement.  The Python function
always returns `None`, so only the state is modelled. -/
def actualizar_libro (st : LibState) (id_libro : Nat)
    (nuevo_titulo : Option String) (nuevo_anio : Option Int) : LibState :=
  if nuevo_titulo = none ∧ nuevo_anio = none then st
  else
    { st with libros := st.libros.map (fun l =>
        if l.id == id_libro then
          { l with titulo := nuevo_titulo.getD l.titulo
                   anio := nuevo_anio.getD l.anio }
        else l) }

/-- `eliminar_libro` (ej3a1): `DELETE FROM libros WHERE id = ?`, commit, and
print a message depending on `cursor.rowcount`.  The Python function returns
`None` on every path, so the returned value is `Unit`. -/
def eliminar_libro (st : LibState) (id_libro : Nat) : LibState × Unit :=
  ({ st with libros := st.libros.filter (fun l => !(l.id == id_libro)) }, ())

/-- One `INSERT INTO autores` statement inside the transaction scope; `fault`
injects a backend error at this statement.  Returns the new state and
`cursor.lastrowid`. -/
def insertAutorTx (st : LibState) (nombre : String) (fault : Bool) :
    Except SqlError (LibState × Nat) :=
  if fault then .error .backend
  else
    let nuevoId := st.seqAutores + 1
    .ok ({ st with seqAutores := nuevoId, autores := st.autores ++ [⟨nuevoId, nombre⟩] },
         nuevoId)

/-- One `INSERT INTO libros` statement inside the transaction scope. -/
def insertLibroTx (st : LibState) (titulo : String) (anio : Int) (autor_id : Nat)
    (fault : Bool) : Except SqlError LibState :=
  if fault then .error .backend
  else
    let nuevoId := st.seqLibros + 1
    .ok { st with seqLibros := nuevoId
                  libros := st.libros ++ [⟨nuevoId, titulo, anio, autor_id⟩] }

/-- The try-block of `ejemplo_transaccion` (ej3a1): BEGIN TRANSACTION, insert
the author, insert the dependent book using `lastrowid`, commit.  An injected
`sqlite3.Error` aborts the sequence at the faulted statement. -/
def ejemplo_transaccion_try (st : LibState) (f : TxFault) : Except SqlError LibState :=
  match insertAutorTx st "Mario Vargas Llosa" (f == TxFault.atInsertAutor) with
  | .error e => .error e
  | .ok (st1, nuevo_autor_id) =>
      insertLibroTx st1 "La ciudad y los perros" 1963 nuevo_autor_id
        (f == TxFault.atInsertLibro)

/-- `ejemplo_transaccion` (ej3a1): on success the committed state is visible;
on a `sqlite3.Error` the except-branch prints, calls `conexion.rollback()`
(restoring the pre-transaction state) and falls off the end of the function,
returning `None` normally.  The second component is the exception channel the
caller observes: `Except.ok ()` means the call returned without raising. -/
def ejemplo_transaccion (st : LibState) (f : TxFault) : LibState × Except SqlError Unit :=
  match ejemplo_transaccion_try st f with
  | .ok st2 => (st2, .ok ())
  | .error _ => (st, .ok ())

end Ej3a1

namespace Ej3a2

/-- The content of the `test.sql` script: the rows its `CREATE TABLE` +
`INSERT` statements put into a fresh database. -/
structure SqlScript where
  autores : List Autor
  libros : List Libro
deriving DecidableEq, Repr

/-- `conexion.executescript(script_sql)` on a database: the script creates the
tables and inserts its rows. -/
def executescript (db : LibState) (s : SqlScript) : LibState :=
  { db with autores := db.autores ++ s.autores
            libros := db.libros ++ s.libros
            seqAutores := db.seqAutores + s.autores.length
            seqLibros := db.seqLibros + s.libros.length }

/-- `crear_bd_desde_sql` (ej3a2): step 1 removes the database file whenever it
exists (`os.remove`), step 2 connects (creating an empty database, since the
file is now always missing), steps 3-5 run the SQL script and commit.  `fs` is
the pre-existing file at `DB_PATH` (`none` when absent). -/
def crear_bd_desde_sql (fs : Option LibState) (script : SqlScript) : LibState :=
  let fsAfterRemove : Option LibState :=
    match fs with
    | some _ => none
    | none => none
  let db0 : LibState :=
    match fsAfterRemove with
    | some db => db
    | none => emptyDb
  executescript db0 script

/-- The inner join of `obtener_libros`, projected to
`(l.id, l.titulo, l.anio, a.nombre)`. -/
def joinConId (st : LibState) : List (Nat × String × Int × String) :=
  st.libros.flatMap (fun l =>
    (st.autores.filter (fun a => a.id == l.autor_id)).map
      (fun a => (l.id, l.titulo, l.anio, a.nombre)))

/-- `ORDER BY l.id` comparison on the rows of `obtener_libros`. -/
def rowLeId (x y : Nat × String × Int × String) : Prop := x.1 ≤ y.1

instance : DecidableRel rowLeId := fun x y => inferInstanceAs (Decidable (x.1 ≤ y.1))

instance : IsTotal (Nat × String × Int × String) rowLeId := ⟨fun a b => le_total a.1 b.1⟩

instance : IsTrans (Nat × String × Int × String) rowLeId := ⟨fun _ _ _ h1 h2 => le_trans h1 h2⟩

/-- `obtener_libros` (ej3a2): `SELECT l.id, l.titulo, l.anio, a.nombre FROM
libros l JOIN autores a ON l.autor_id = a.id ORDER BY l.id`. -/
def obtener_libros (st : LibState) : List (Nat × String × Int × String) :=
  List.insertionSort rowLeId (joinConId st)

/-- `actualizar_libro` (ej3a2): first a `SELECT id FROM libros WHERE id = ?`
existence check (returning `False` when `fetchone()` is `None`), then an early
`False` return when no field was supplied, otherwise a dynamically built
`UPDATE ... WHERE id = ?`, commit, and `cursor.rowcount > 0`. -/
def actualizar_libro (st : LibState) (libro_id : Nat) (nuevo_titulo : Option String)
    (nuevo_anio : Option Int) (nuevo_autor_id : Option Nat) : LibState × Bool :=
  match st.libros.find? (fun l => l.id == libro_id) with
  | none => (st, false)
  | some _ =>
    if nuevo_titulo = none ∧ nuevo_anio = none ∧ nuevo_autor_id = none then (st, false)
    else
      let libros := st.libros.map (fun l =>
        if l.id == libro_id then
          { l with titulo := nuevo_titulo.getD l.titulo
                   anio := nuevo_anio.getD l.anio
                   autor_id := nuevo_autor_id.getD l.autor_id }
        else l)
      ({ st with libros := libros },
       decide (0 < st.libros.countP (fun l => l.id == libro_id)))

end Ej3a2

namespace Ej3a4

/-- A BSON scalar as far as the exercise uses them: document `_id` fields hold
ObjectIds, the denormalized `autor_id` field holds a string.  MongoDB equality
between values of different BSON types never holds, which the derived
constructor-disjoint equality captures. -/
inductive BVal where
  | str : String → BVal
  | oid : Nat → BVal
deriving DecidableEq, Repr

/-- `str(object_id)` in Python: the text form of an ObjectId. -/
def oidStr (o : Nat) : String := toString o

/-- A document of the `autores` collection: `_id` (backend-assigned ObjectId)
and `nombre`. -/
structure AutorDoc where
  oid : Nat
  nombre : String
deriving DecidableEq, Repr

/-- A document of the `libros` collection.  `insertar_libros` stores
`autor_id` as `str(autor_id)`, so the field is a string, never an ObjectId. -/
structure LibroDoc where
  oid : Nat
  titulo : String
  anio : Int
  autor_id : String
deriving DecidableEq, Repr

/-- State of the `biblioteca` MongoDB database; `counter` is the source of
fresh ObjectIds. -/
structure MongoState where
  counter : Nat
  autores : List AutorDoc
  libros : List LibroDoc
deriving DecidableEq, Repr

/-- A Python-level exception inside a driver call. -/
inductive PyError where
  | attributeError
  | backend
deriving DecidableEq, Repr

/-- Modelled from the spec: evaluating `pymongo.ObjectId(id_libro)` raises
`AttributeError`, because the `pymongo` module does not provide an `ObjectId`
attribute (ej3a4 imports `ObjectId` from `bson.objectid` but never uses
that imported name when building its `_id` filters). -/
def pymongoObjectId (_id_libro : String) : Except PyError Nat :=
  .error .attributeError

/-- `insertar_autores` (ej3a4): `insert_many` of `{nombre: ...}` documents;
the backend assigns fresh ObjectIds; returns `str(_id)` for each document. -/
def insertar_autores (st : MongoState) (autores : List String) :
    MongoState × List String :=
  let docs := autores.enum.map (fun p => AutorDoc.mk (st.counter + p.1) p.2)
  ({ st with counter := st.counter + autores.length
             autores := st.autores ++ docs },
   docs.map (fun d => oidStr d.oid))

/-- `insertar_libros` (ej3a4): `insert_many` of
`{titulo, anio, autor_id: str(autor_id)}` documents (the input `autor_id` is
already a string, so `str` leaves it unchanged); returns `str(_id)` for each. -/
def insertar_libros (st : MongoState) (libros : List (String × Int × String)) :
    MongoState × List String :=
  let docs := libros.enum.map
    (fun p => LibroDoc.mk (st.counter + p.1) p.2.1 p.2.2.1 p.2.2.2)
  ({ st with counter := st.counter + libros.length
             libros := st.libros ++ docs },
   docs.map (fun d => oidStr d.oid))

/-- The `$lookup` stage of `consultar_libros`: the `autores` documents whose
`_id` (an ObjectId) equals the book's `autor_id` (a string) under BSON
equality. -/
def lookupAutores (st : MongoState) (l : LibroDoc) : List AutorDoc :=
  st.autores.filter (fun a => BVal.str l.autor_id == BVal.oid a.oid)

/-- `consultar_libros` (ej3a4): aggregation pipeline `$lookup` (on
`autor_id` = `_id`), `$unwind` (dropping books whose `autor` array is empty),
`$project` to `(titulo, anio, autor_nombre)`, `$sort` by `titulo`. -/
def consultar_libros (st : MongoState) : List (String × Int × String) :=
  let unwound := st.libros.flatMap (fun l =>
    (lookupAutores st l).map (fun a => (l.titulo, l.anio, a.nombre)))
  List.insertionSort rowLeTitulo unwound

/-- `buscar_libros_por_autor` (ej3a4): `find_one` the author by name (an
absent author prints a message and returns `[]`), then `find` the books whose
`autor_id` string equals `str(autor["_id"])`. -/
def buscar_libros_por_autor (st : MongoState) (nombre_autor : String) :
    List (String × Int) :=
  match st.autores.find? (fun a => a.nombre == nombre_autor) with
  | none => []
  | some autor =>
      (st.libros.filter (fun l => l.autor_id == oidStr autor.oid)).map
        (fun l => (l.titulo, l.anio))

/-- The try-block of `actualizar_libro` (ej3a4): early `False` return when no
field was supplied; otherwise build the `_id` filter with
`pymongo.ObjectId(id_libro)` — which raises — then `update_one` with `$set`
(unreachable). -/
def actualizar_body (st : MongoState) (id_libro : String) (nuevo_titulo : Option String)
    (nuevo_anio : Option Int) : Except PyError (MongoState × Bool) :=
  if nuevo_titulo = none ∧ nuevo_anio = none then .ok (st, false)
  else
    (pymongoObjectId id_libro).bind (fun oid =>
      let libros := st.libros.map (fun l =>
        if l.oid == oid then
          { l with titulo := nuevo_titulo.getD l.titulo
                   anio := nuevo_anio.getD l.anio }
        else l)
      .ok ({ st with libros := libros },
           decide (0 < st.libros.countP (fun l => l.oid == oid))))

/-- `actualizar_libro` (ej3a4): the try-block above with
`except Exception: return False`. -/
def actualizar_libro (st : MongoState) (id_libro : String)
    (nuevo_titulo : Option String) (nuevo_anio : Option Int) : MongoState × Bool :=
  match actualizar_body st id_libro nuevo_titulo nuevo_anio with
  | .ok r => r
  | .error _ => (st, false)

/-- The try-block of `eliminar_libro` (ej3a4): build the `_id` filter with
`pymongo.ObjectId(id_libro)` — which raises — then `delete_one` (unreachable:
it would remove the first matching document and report `deleted_count > 0`). -/
def eliminar_body (st : MongoState) (id_libro : String) :
    Except PyError (MongoState × Bool) :=
  (pymongoObjectId id_libro).bind (fun oid =>
    match st.libros.find? (fun l => l.oid == oid) with
    | some d => .ok ({ st with libros := st.libros.erase d }, true)
    | none => .ok (st, false))

/-- `eliminar_libro` (ej3a4): the try-block above with
`except Exception: return False`. -/
def eliminar_libro (st : MongoState) (id_libro : String) : MongoState × Bool :=
  match eliminar_body st id_libro with
  | .ok r => r
  | .error _ => (st, false)

/-- The body of `ejemplo_transaccion` (ej3a4): inside
`start_session()/start_transaction()`, `insert_one` the author, then
`insert_one` the dependent book with `autor_id = str(nuevo_autor_id)`.  An
exception aborts the transaction (no partial effects) and escapes the inner
`with` blocks. -/
def ejemplo_transaccion_try (st : MongoState) (f : TxFault) :
    Except PyError MongoState :=
  match (if f == TxFault.atInsertAutor then Except.error PyError.backend
         else Except.ok { st with counter := st.counter + 1
                                  autores := st.autores ++ [⟨st.counter, "Octavio Paz"⟩] } :
         Except PyError MongoState) with
  | .error e => .error e
  | .ok st1 =>
      if f == TxFault.atInsertLibro then .error .backend
      else .ok { st1 with counter := st1.counter + 1
                          libros := st1.libros ++
                            [⟨st1.counter, "El laberinto de la soledad", 1950,
                              oidStr st.counter⟩] }

/-- `ejemplo_transaccion` (ej3a4): the transaction body above with
`except Exception: print(...); return False` — the exception is caught and the
function returns `False` normally; on success it returns `True`. -/
def ejemplo_transaccion (st : MongoState) (f : TxFault) : MongoState × Bool :=
  match ejemplo_transaccion_try st f with
  | .ok st2 => (st2, true)
  | .error _ => (st, false)

end Ej3a4

/-! Concrete states used by the witnesses and counterexamples. -/

/-- A small SQLite database state with two authors and two books. -/
def demoSt : LibState :=
  ⟨2, 2,
   [⟨1, "Gabriel García Márquez"⟩, ⟨2, "Isabel Allende"⟩],
   [⟨1, "Cien años de soledad", 1967, 1⟩, ⟨2, "Paula", 1994, 2⟩]⟩

/-- `demoSt` without the book of id 1. -/
def c8SinUno : LibState :=
  ⟨2, 2,
   [⟨1, "Gabriel García Márquez"⟩, ⟨2, "Isabel Allende"⟩],
   [⟨2, "Paula", 1994, 2⟩]⟩

/-- A pre-existing database file with data of its own. -/
def c4Existing : LibState := ⟨1, 0, [⟨1, "Miguel de Cervantes"⟩], []⟩

/-- The rows the `test.sql` script inserts. -/
def c4Script : Ej3a2.SqlScript :=
  ⟨[⟨1, "Gabriel García Márquez"⟩], [⟨1, "Cien años de soledad", 1967, 1⟩]⟩

/-- A database where the id order of the books is the reverse of their title
order. -/
def c6St : LibState :=
  ⟨1, 2,
   [⟨1, "Isabel Allende"⟩],
   [⟨1, "Zorro", 2005, 1⟩, ⟨2, "Alba", 2000, 1⟩]⟩

/-- A schema state where `autores` already exists (with a row) and `libros`
does not. -/
def c7St : Ej3a1.SchemaState := ⟨some [⟨1, "Jorge Luis Borges"⟩], none⟩

/-- An empty MongoDB database. -/
def demoMongo : Ej3a4.MongoState := ⟨0, [], []⟩

/-- One author inserted through `insertar_autores` (ej3a4). -/
def c9Inserted : Ej3a4.MongoState × List String :=
  Ej3a4.insertar_autores demoMongo ["Gabriel García Márquez"]

/-- The state after inserting, through `insertar_libros` (ej3a4), one book
whose `autor_id` is the id string that `insertar_autores` returned. -/
def c9St : Ej3a4.MongoState :=
  (Ej3a4.insertar_libros c9Inserted.1
    [("Cien años de soledad", 1967, c9Inserted.2.getD 0 "")]).1

/-- `ORDER BY titulo` comparison on the `(id, titulo, anio, nombre)` rows of
`obtener_libros` — the order the spec asserts and ej3a2 does not use. -/
def obtRowLeTitulo (x y : Nat × String × Int × String) : Prop := x.2.1 ≤ y.2.1

instance : DecidableRel obtRowLeTitulo := fun x y => inferInstanceAs (Decidable (x.2.1 ≤ y.2.1))

/-- Pointwise frame relation between a book row before and after a partial
update targeting `libro_id` with field set `(nuevo_titulo, nuevo_anio,
nuevo_autor_id)` (`none` = field not supplied): ids never change, untargeted
rows are untouched, and each unsupplied field keeps its previous value. -/
def frameOk (nuevo_titulo : Option String) (nuevo_anio : Option Int)
    (nuevo_autor_id : Option Nat) (libro_id : Nat) (viejo nuevo : Libro) : Prop :=
  nuevo.id = viejo.id ∧
  (viejo.id ≠ libro_id → nuevo = viejo) ∧
  (nuevo_titulo = none → nuevo.titulo = viejo.titulo) ∧
  (nuevo_anio = none → nuevo.anio = viejo.anio) ∧
  (nuevo_autor_id = none → nuevo.autor_id = viejo.autor_id)

/-- An unchanged book list satisfies the frame relation. -/
theorem frame_refl (t : Option String) (y : Option Int) (aid : Option Nat)
    (libro_id : Nat) (libros : List Libro) :
    List.Forall₂ (frameOk t y aid libro_id) libros libros :=
  List.forall₂_same.mpr
    (fun _ _ => ⟨rfl, fun _ => rfl, fun _ => rfl, fun _ => rfl, fun _ => rfl⟩)

/-- The `UPDATE ... WHERE id = ?` map of the dynamically built statement
satisfies the frame relation. -/
theorem frame_map (libros : List Libro) (libro_id : Nat) (t : Option String)
    (y : Option Int) (aid : Option Nat) :
    List.Forall₂ (frameOk t y aid libro_id) libros
      (libros.map (fun l =>
        if l.id == libro_id then
          { l with titulo := t.getD l.titulo
                   anio := y.getD l.anio
                   autor_id := aid.getD l.autor_id }
        else l)) := by
  rw [List.forall₂_map_right_iff]
  apply List.forall₂_same.mpr
  intro l _
  by_cases hid : (l.id == libro_id) = true
  · rw [if_pos hid]
    refine ⟨rfl, ?_, ?_, ?_, ?_⟩
    · intro hne
      exact absurd (by simpa using hid) hne
    · rintro rfl
      rfl
    · rintro rfl
      rfl
    · rintro rfl
      rfl
  · rw [if_neg hid]
    exact ⟨rfl, fun _ => rfl, fun _ => rfl, fun _ => rfl, fun _ => rfl⟩

/-! Claims. -/

/-- Claim C1, as stated, is false: with a backend error injected at the
second statement of the transaction scope, the partial effects are indeed
rolled back, but the exception does NOT propagate to the caller —
`ejemplo_transaccion` (ej3a1) catches `sqlite3.Error` and returns normally
(`Except.ok ()` on the caller-visible exception channel). -/
theorem C1_counterexample :
    ¬ ((Ej3a1.ejemplo_transaccion demoSt TxFault.atInsertLibro).1 = demoSt ∧
       (Ej3a1.ejemplo_transaccion demoSt TxFault.atInsertLibro).2 ≠ Except.ok ()) := by
  intro h
  exact h.2 rfl

/-- Claim C1 (amended): on an exception raised at either statement inside the
transaction scope, every partial effect is rolled back (the resulting state is
exactly the pre-transaction state), but the exception is swallowed rather than
propagated: the ej3a1 version returns `None` normally and the ej3a4 version
returns `False`. -/
theorem C1_rollback_then_swallow (st : LibState) (st4 : Ej3a4.MongoState)
    (f : TxFault) (h : f ≠ TxFault.noFault) :
    Ej3a1.ejemplo_transaccion st f = (st, Except.ok ()) ∧
    Ej3a4.ejemplo_transaccion st4 f = (st4, false) := by
  cases f with
  | noFault => exact absurd rfl h
  | atInsertAutor => exact ⟨rfl, rfl⟩
  | atInsertLibro => exact ⟨rfl, rfl⟩

/-- Witness for C1: the amended theorem applied at a concrete state with the
fault injected between the author insert and the book insert. -/
theorem C1_witness :
    TxFault.atInsertLibro ≠ TxFault.noFault ∧
    Ej3a1.ejemplo_transaccion demoSt TxFault.atInsertLibro = (demoSt, Except.ok ()) ∧
    Ej3a4.ejemplo_transaccion demoMongo TxFault.atInsertLibro = (demoMongo, false) :=
  ⟨by decide,
   C1_rollback_then_swallow demoSt demoMongo TxFault.atInsertLibro (by decide)⟩

/-- Claim C2, as stated, is false at a concrete input: no author of `demoSt`
is named "Julio Cortázar", yet `buscar_libros_por_autor` silently returns the
empty list instead of failing. -/
theorem C2_counterexample :
    ¬ ((∀ a ∈ demoSt.autores, a.nombre ≠ "Julio Cortázar") →
       Ej3a1.buscar_libros_por_autor demoSt "Julio Cortázar" ≠ []) := by
  decide

/-- Claim C2 (amended): for every author name that matches no stored author,
both `buscar_libros_por_autor` implementations return the empty list as a
normal value (no `NotFoundError` exists in the code), which is exactly the
value they return for an existing author with no works. -/
theorem C2_unknown_author_empty (st : LibState) (st4 : Ej3a4.MongoState)
    (nombre : String)
    (h : ∀ a ∈ st.autores, a.nombre ≠ nombre)
    (h4 : ∀ a ∈ st4.autores, a.nombre ≠ nombre) :
    Ej3a1.buscar_libros_por_autor st nombre = [] ∧
    Ej3a4.buscar_libros_por_autor st4 nombre = [] := by
  constructor
  · unfold Ej3a1.buscar_libros_por_autor
    rw [List.flatMap_eq_nil_iff]
    intro l _
    rw [List.map_eq_nil_iff, List.filter_eq_nil_iff]
    intro a ha
    simp [h a ha]
  · unfold Ej3a4.buscar_libros_por_autor
    have hnone : st4.autores.find? (fun a => a.nombre == nombre) = none :=
      List.find?_eq_none.mpr (fun a ha => by simp [h4 a ha])
    rw [hnone]

/-- Witness for C2: a concrete state with no author named "Julio Cortázar". -/
theorem C2_witness :
    (∀ a ∈ demoSt.autores, a.nombre ≠ "Julio Cortázar") ∧
    Ej3a1.buscar_libros_por_autor demoSt "Julio Cortázar" = [] ∧
    Ej3a4.buscar_libros_por_autor demoMongo "Julio Cortázar" = [] :=
  ⟨by decide,
   (C2_unknown_author_empty demoSt demoMongo "Julio Cortázar" (by decide) (by decide)).1,
   (C2_unknown_author_empty demoSt demoMongo "Julio Cortázar" (by decide) (by decide)).2⟩

/-- Claim C3 (confirmed): a partial update changes at most the supplied fields
of the records with the targeted id.  For both `actualizar_libro`
implementations (ej3a2 with three optional fields, ej3a1 with two), the
`autores` table is untouched and the book list is pointwise related to the old
one by `frameOk`: ids never change, rows with a different id are untouched,
and every field the caller did not supply keeps its previous value. -/
theorem C3_partial_update_frame (st : LibState) (libro_id : Nat)
    (t : Option String) (y : Option Int) (aid : Option Nat) :
    (Ej3a2.actualizar_libro st libro_id t y aid).1.autores = st.autores ∧
    List.Forall₂ (frameOk t y aid libro_id) st.libros
      (Ej3a2.actualizar_libro st libro_id t y aid).1.libros ∧
    (Ej3a1.actualizar_libro st libro_id t y).autores = st.autores ∧
    List.Forall₂ (frameOk t y none libro_id) st.libros
      (Ej3a1.actualizar_libro st libro_id t y).libros := by
  refine ⟨?_, ?_, ?_, ?_⟩
  · unfold Ej3a2.actualizar_libro
    split
    · rfl
    · split
      · rfl
      · rfl
  · unfold Ej3a2.actualizar_libro
    split
    · exact frame_refl t y aid libro_id st.libros
    · split
      · exact frame_refl t y aid libro_id st.libros
      · exact frame_map st.libros libro_id t y aid
  · unfold Ej3a1.actualizar_libro
    split
    · rfl
    · rfl
  · unfold Ej3a1.actualizar_libro
    split
    · exact frame_refl t y none libro_id st.libros
    · exact frame_map st.libros libro_id t y none

/-- Witness for C3: the spec's concrete scenario — updating only the year of
book 1 to 2020 leaves title and author reference unchanged, and the other
record untouched. -/
theorem C3_witness :
    (Ej3a2.actualizar_libro demoSt 1 none (some 2020) none).1.libros =
      [⟨1, "Cien años de soledad", 2020, 1⟩, ⟨2, "Paula", 1994, 2⟩] ∧
    List.Forall₂ (frameOk none (some 2020) none 1) demoSt.libros
      (Ej3a2.actualizar_libro demoSt 1 none (some 2020) none).1.libros :=
  ⟨by decide, (C3_partial_update_frame demoSt 1 none (some 2020) none).2.1⟩

/-- Claim C4, as stated, is false at a concrete input: the database file at
`DB_PATH` already holds an author, and after `crear_bd_desde_sql` that
previously stored row is gone (the function unconditionally removes the file
before rebuilding it from the script). -/
theorem C4_counterexample :
    ¬ (∀ a ∈ c4Existing.autores,
        a ∈ (Ej3a2.crear_bd_desde_sql (some c4Existing) c4Script).autores) := by
  decide

/-- Claim C4 (amended): `crear_bd_desde_sql` (ej3a2) always resets — the
result is identical whether or not a database file existed, so pre-existing
durable state never survives; `crear_conexion` (ej3a1) targets `:memory:` and
leaves the filesystem untouched. -/
theorem C4_connect_resets (fs : LibState) (script : Ej3a2.SqlScript)
    (fs1 : Option LibState) :
    Ej3a2.crear_bd_desde_sql (some fs) script = Ej3a2.crear_bd_desde_sql none script ∧
    (Ej3a1.crear_conexion fs1).1 = fs1 :=
  ⟨rfl, rfl⟩

/-- Claim C5, as stated, is false at a concrete input: book 1 exists and book
999 does not, yet the empty partial update on book 1 returns exactly the same
value as the not-found update on book 999 — `(state unchanged, False)` — so
the no-op signal is not distinct from the not-found outcome. -/
theorem C5_counterexample :
    (demoSt.libros.any (fun l => l.id == 1)) = true ∧
    (demoSt.libros.any (fun l => l.id == 999)) = false ∧
    Ej3a2.actualizar_libro demoSt 1 none none none =
      Ej3a2.actualizar_libro demoSt 999 (some "X") none none := by
  decide

/-- Claim C5 (amended): an empty partial update executes no write and leaves
all stored data unchanged, but both implementations signal it with `False` —
the same value they return for a missing record and for a backend error, not
a distinct no-op signal. -/
theorem C5_empty_update_noop (st : LibState) (st4 : Ej3a4.MongoState)
    (libro_id : Nat) (id4 : String) :
    Ej3a2.actualizar_libro st libro_id none none none = (st, false) ∧
    Ej3a4.actualizar_libro st4 id4 none none = (st4, false) := by
  constructor
  · unfold Ej3a2.actualizar_libro
    split
    · rfl
    · rw [if_pos ⟨rfl, rfl, rfl⟩]
  · rfl

/-- Claim C6, as stated, is false at a concrete input: `obtener_libros`
(ej3a2) orders by `l.id`, and on a database where the id order reverses the
title order the returned joined listing is not sorted by title. -/
theorem C6_counterexample :
    ¬ List.Sorted obtRowLeTitulo (Ej3a2.obtener_libros c6St) := by
  have hev : Ej3a2.obtener_libros c6St =
      [(1, "Zorro", 2005, "Isabel Allende"), (2, "Alba", 2000, "Isabel Allende")] := by
    rfl
  rw [hev]
  intro hs
  have h12 := List.rel_of_sorted_cons hs (2, "Alba", 2000, "Isabel Allende") (by simp)
  have hle : ("Zorro" : String) ≤ "Alba" := h12
  rw [String.le_iff_toList_le] at hle
  exact absurd hle (by decide)

/-- Claim C6 (amended): every joined listing is deterministically ordered, but
by the key its own `ORDER BY` names — `consultar_libros` (ej3a1) and the
ej3a4 aggregation sort by title, while `obtener_libros` (ej3a2) sorts by id,
not by title. -/
theorem C6_deterministic_order (st : LibState) (st4 : Ej3a4.MongoState) :
    List.Sorted rowLeTitulo (Ej3a1.consultar_libros st) ∧
    List.Sorted Ej3a2.rowLeId (Ej3a2.obtener_libros st) ∧
    List.Sorted rowLeTitulo (Ej3a4.consultar_libros st4) :=
  ⟨List.sorted_insertionSort rowLeTitulo _,
   List.sorted_insertionSort Ej3a2.rowLeId _,
   List.sorted_insertionSort rowLeTitulo _⟩

/-- Claim C7 (confirmed): `crear_tablas` (ej3a1) uses
`CREATE TABLE IF NOT EXISTS`, so running it twice equals running it once, and
a table that already exists keeps its rows — re-initialization changes neither
schema nor data and does not fail. -/
theorem C7_crear_tablas_idempotent (st : Ej3a1.SchemaState) (rowsA : List Autor)
    (rowsL : List Libro) :
    Ej3a1.crear_tablas (Ej3a1.crear_tablas st) = Ej3a1.crear_tablas st ∧
    (st.tablaAutores = some rowsA →
      (Ej3a1.crear_tablas st).tablaAutores = some rowsA) ∧
    (st.tablaLibros = some rowsL →
      (Ej3a1.crear_tablas st).tablaLibros = some rowsL) := by
  refine ⟨?_, ?_, ?_⟩
  · unfold Ej3a1.crear_tablas Ej3a1.createTableIfNotExists
    cases st.tablaAutores <;> cases st.tablaLibros <;> rfl
  · intro h
    show Ej3a1.createTableIfNotExists st.tablaAutores = some rowsA
    rw [h]
    rfl
  · intro h
    show Ej3a1.createTableIfNotExists st.tablaLibros = some rowsL
    rw [h]
    rfl

/-- Witness for C7: a schema state where `autores` exists with one row and
`libros` does not exist yet. -/
theorem C7_witness :
    Ej3a1.crear_tablas (Ej3a1.crear_tablas c7St) = Ej3a1.crear_tablas c7St ∧
    (Ej3a1.crear_tablas c7St).tablaAutores = some [⟨1, "Jorge Luis Borges"⟩] :=
  ⟨(C7_crear_tablas_idempotent c7St [⟨1, "Jorge Luis Borges"⟩] []).1,
   (C7_crear_tablas_idempotent c7St [⟨1, "Jorge Luis Borges"⟩] []).2.1 rfl⟩

/-- Claim C8, as stated, is false at a concrete input: `eliminar_libro`
(ej3a1) returns `None` on every path, so a call that removed a record and a
call that removed nothing return the identical value — the return value tells
the caller nothing about whether a record was removed. -/
theorem C8_counterexample :
    (Ej3a1.eliminar_libro demoSt 1).2 = (Ej3a1.eliminar_libro c8SinUno 1).2 ∧
    (Ej3a1.eliminar_libro demoSt 1).1 ≠ demoSt ∧
    (Ej3a1.eliminar_libro c8SinUno 1).1 = c8SinUno := by
  decide

/-- Claim C8 (amended): deleting an absent id is a normal outcome, not an
error, and leaves the store unchanged; but the return value carries no
removed/not-removed information — ej3a1's `eliminar_libro` returns `None`
(only printing a message), and ej3a4's returns `False` for every input. -/
theorem C8_delete_absent_noop (st : LibState) (id_libro : Nat)
    (h : ∀ l ∈ st.libros, l.id ≠ id_libro) (st4 : Ej3a4.MongoState) (id4 : String) :
    (Ej3a1.eliminar_libro st id_libro).1 = st ∧
    (Ej3a1.eliminar_libro st id_libro).2 = () ∧
    Ej3a4.eliminar_libro st4 id4 = (st4, false) := by
  refine ⟨?_, rfl, rfl⟩
  unfold Ej3a1.eliminar_libro
  have hfl : st.libros.filter (fun l => !(l.id == id_libro)) = st.libros := by
    rw [List.filter_eq_self]
    intro l hl
    simp [h l hl]
  show ({ st with libros := st.libros.filter (fun l => !(l.id == id_libro)) } : LibState) = st
  rw [hfl]

/-- Witness for C8: deleting id 1 from the state that has no book 1. -/
theorem C8_witness :
    (∀ l ∈ c8SinUno.libros, l.id ≠ 1) ∧
    (Ej3a1.eliminar_libro c8SinUno 1).1 = c8SinUno :=
  ⟨by decide, (C8_delete_absent_noop c8SinUno 1 (by decide) demoMongo "x").1⟩

/-- Claim C9 (confirmed): `insertar_libros` (ej3a4) stores `autor_id` as the
string form of the author id, while the `consultar_libros` aggregation joins
that string against the ObjectId `_id` by strict BSON equality, which never
holds — so the joined listing is always empty; yet `buscar_libros_por_autor`
compares string to string and does find the book. -/
theorem C9_join_mismatch (st : Ej3a4.MongoState) (nombre : String)
    (a : Ej3a4.AutorDoc) (l : Ej3a4.LibroDoc)
    (hfind : st.autores.find? (fun x => x.nombre == nombre) = some a)
    (hl : l ∈ st.libros) (hid : l.autor_id = Ej3a4.oidStr a.oid) :
    Ej3a4.consultar_libros st = [] ∧
    (l.titulo, l.anio) ∈ Ej3a4.buscar_libros_por_autor st nombre := by
  constructor
  · unfold Ej3a4.consultar_libros
    have hnil : st.libros.flatMap (fun b =>
        (Ej3a4.lookupAutores st b).map (fun x => (b.titulo, b.anio, x.nombre))) = [] := by
      rw [List.flatMap_eq_nil_iff]
      intro b _
      rw [List.map_eq_nil_iff]
      unfold Ej3a4.lookupAutores
      rw [List.filter_eq_nil_iff]
      intro x _
      simp
    rw [hnil]
    rfl
  · unfold Ej3a4.buscar_libros_por_autor
    rw [hfind]
    apply List.mem_map.mpr
    refine ⟨l, ?_, rfl⟩
    rw [List.mem_filter]
    exact ⟨hl, by simp [hid]⟩

/-- Witness for C9: one author inserted through `insertar_autores`, one book
inserted through `insertar_libros` with the returned id string — the
aggregation returns nothing while the by-name search finds the book. -/
theorem C9_witness :
    c9St.autores.find? (fun x => x.nombre == "Gabriel García Márquez") =
      some ⟨0, "Gabriel García Márquez"⟩ ∧
    Ej3a4.consultar_libros c9St = [] ∧
    ("Cien años de soledad", (1967 : Int)) ∈
      Ej3a4.buscar_libros_por_autor c9St "Gabriel García Márquez" := by
  refine ⟨by decide, ?_⟩
  exact C9_join_mismatch c9St "Gabriel García Márquez"
    ⟨0, "Gabriel García Márquez"⟩ ⟨1, "Cien años de soledad", 1967, "0"⟩
    (by decide) (by decide) (by decide)

/-- Claim C10 (confirmed): for every id string, `actualizar_libro` and
`eliminar_libro` (ej3a4) return `False` and leave the store unchanged —
building the `_id` filter with `pymongo.ObjectId` raises before any write, and
the exception branch returns `False` (for an update with no supplied fields
the early no-field branch returns the same `(state, False)`). -/
theorem C10_update_delete_always_false :
    (∀ (st : Ej3a4.MongoState) (id_libro : String)
       (t : Option String) (y : Option Int),
      Ej3a4.actualizar_libro st id_libro t y = (st, false)) ∧
    (∀ (st : Ej3a4.MongoState) (id_libro : String),
      Ej3a4.eliminar_libro st id_libro = (st, false)) := by
  constructor
  · intro st id_libro t y
    unfold Ej3a4.actualizar_libro Ej3a4.actualizar_body
    by_cases hc : t = none ∧ y = none
    · rw [if_pos hc]
    · rw [if_neg hc]
      rfl
  · intro st id_libro
    rfl
